import Mathlib

/-!
Verification of the MuRaL model architecture (`MuRaL/nn_models.py`) and the
Ray-Tune training driver (`MuRaL/run_train_raytune.py`).

The networks are embedded at the shape level: each `torch` layer becomes a
function from tensor shapes to `Except NetErr` shapes, returning the shape a
successful forward pass would produce and an error value exactly where the
PyTorch call (or an `assert` in the source) would raise.  The probability
fusion stage (softmax / clamp / log) is additionally embedded at the value
level over `ℝ`, and the `ResBlock` skip connection at the value level over
rational 1-D tensors.
-/

namespace MuRaL

/-- Runtime failures of a forward pass: the two `assert` statements in the
source, shape mismatches raised by the layers, and the Python
`UnboundLocalError` / `IndexError` reachable in `FeedForwardNN.forward`. -/
inductive NetErr where
  /-- `assert distal_input.shape[2] > 200` failed. -/
  | assertLen
  /-- `assert(jump_input.shape[2] >= distal_out.shape[2])` failed. -/
  | assertSkip
  /-- a `BatchNorm1d`/`Conv1d` received the wrong number of channels. -/
  | chanMismatch
  /-- `Conv1d` would produce an empty (non-positive length) output. -/
  | convLen
  /-- `MaxPool1d` padding exceeds half the kernel size. -/
  | poolPad
  /-- `MaxPool1d` would produce an empty output. -/
  | poolLen
  /-- `torch.max(_, dim=2)` over an empty sequence axis. -/
  | emptyMax
  /-- element-wise addition of non-broadcastable sizes. -/
  | broadcast
  /-- a `Linear` layer received the wrong number of input features. -/
  | featMismatch
  /-- `local_out` referenced before assignment (`torch.cat` runs outside
  the `if self.no_of_embs != 0` guard). -/
  | nameErr
  /-- `cat_data[:, i]` with `i` out of range. -/
  | indexErr
  /-- `lin_layer_sizes[-1]` on an empty list. -/
  | emptyList
  deriving DecidableEq, Repr

/-- Shape of a 2-D tensor `(batch, features)`. -/
structure Shape2 where
  B : ℕ
  C : ℕ
  deriving DecidableEq, Repr

/-- Shape of a 3-D tensor `(batch, channels, length)`. -/
structure Shape3 where
  B : ℕ
  C : ℕ
  L : ℕ
  deriving DecidableEq, Repr

/-- Output length of `nn.Conv1d`:
`L_out = floor((L_in + 2*padding - dilation*(kernel-1) - 1)/stride + 1)`,
defined only when it is positive (otherwise PyTorch raises). -/
def conv1dLen (L k s p dil : ℕ) : Except NetErr ℕ :=
  if 1 ≤ k ∧ 1 ≤ s ∧ dil * (k - 1) + 1 ≤ L + 2 * p then
    .ok ((L + 2 * p - dil * (k - 1) - 1) / s + 1)
  else .error .convLen

/-- Shape action of `nn.Conv1d(inC, outC, k, s, p, dilation=dil)`. -/
def conv1dShape (inC outC k s p dil : ℕ) (x : Shape3) : Except NetErr Shape3 :=
  if x.C = inC then do
    let L' ← conv1dLen x.L k s p dil
    .ok ⟨x.B, outC, L'⟩
  else .error .chanMismatch

/-- Shape action of `nn.BatchNorm1d(c)` on a 3-D input (length preserved). -/
def batchNorm1dShape3 (c : ℕ) (x : Shape3) : Except NetErr Shape3 :=
  if x.C = c then .ok x else .error .chanMismatch

/-- Shape action of `nn.BatchNorm1d(c)` on a 2-D input. -/
def batchNorm1dShape2 (c : ℕ) (x : Shape2) : Except NetErr Shape2 :=
  if x.C = c then .ok x else .error .chanMismatch

/-- Shape action of `nn.MaxPool1d(k, s, p)` (dilation 1, `ceil_mode=False`):
`L_out = floor((L_in + 2*p - k)/s) + 1`; PyTorch requires `p ≤ k/2` and a
non-empty output window. -/
def maxPool1dShape (k s p : ℕ) (x : Shape3) : Except NetErr Shape3 :=
  if 2 * p ≤ k then
    if 1 ≤ s ∧ k ≤ x.L + 2 * p then .ok ⟨x.B, x.C, (x.L + 2 * p - k) / s + 1⟩
    else .error .poolLen
  else .error .poolPad

/-- Broadcast rule of an element-wise addition along one dimension: equal
sizes add, a size of `1` broadcasts, anything else raises. -/
def elemAddLen (a b : ℕ) : Except NetErr ℕ :=
  if a = b then .ok a
  else if a = 1 then .ok b
  else if b = 1 then .ok a
  else .error .broadcast

/-- Shape of `x + y` for 3-D tensors (per-dimension broadcasting). -/
def addShape3 (x y : Shape3) : Except NetErr Shape3 := do
  let B ← elemAddLen x.B y.B
  let C ← elemAddLen x.C y.C
  let L ← elemAddLen x.L y.L
  .ok ⟨B, C, L⟩

/-- Shape of `x + y` for 2-D tensors (per-dimension broadcasting). -/
def addShape2 (x y : Shape2) : Except NetErr Shape2 := do
  let B ← elemAddLen x.B y.B
  let C ← elemAddLen x.C y.C
  .ok ⟨B, C⟩

/-- Length of the Python slice `t[lo:hi]` of a length-`L` axis, for
non-negative `lo`, `hi` (both bounds are clamped to `L`). -/
def pySliceLen (lo hi L : ℕ) : ℕ := min hi L - min lo L

/-! ### ResBlock (`nn_models.py` lines 531-549)

`self.layer = Sequential(ReLU, bn1, conv1, ReLU, bn2, conv2)` with both
convolutions `Conv1d(c, c, kernel_size, stride, padding, dilation)`;
`forward` computes `out = layer(x)`, `d = x.shape[2] - out.shape[2]`,
`out = x[:,:,0:x.shape[2]-d] + out`. -/

/-- Shape action of `ResBlock.layer` (ReLU and BatchNorm preserve shape;
the two convolutions determine the length). -/
def resBlockLayerShape (c k s p dil : ℕ) (x : Shape3) : Except NetErr Shape3 := do
  let y ← batchNorm1dShape3 c x
  let y ← conv1dShape c c k s p dil y
  let y ← batchNorm1dShape3 c y
  conv1dShape c c k s p dil y

/-- Shape action of `ResBlock.forward`: the skip slice
`x[:,:,0:x.shape[2]-d]` has length `min out.L x.L` (in Python,
`x.shape[2]-d = out.shape[2]`, clamped by the slice to `x.shape[2]`). -/
def resBlockShape (c k s p dil : ℕ) (x : Shape3) : Except NetErr Shape3 := do
  let out ← resBlockLayerShape c k s p dil x
  addShape3 ⟨x.B, x.C, pySliceLen 0 out.L x.L⟩ out

/-- Value-level element-wise addition of 1-D tensors with broadcasting,
mirroring `torch` semantics on the last axis. -/
def tensorAdd1d (a b : List ℚ) : Except NetErr (List ℚ) :=
  if a.length = b.length then .ok (List.zipWith (· + ·) a b)
  else if a.length = 1 then .ok (b.map (a.headD 0 + ·))
  else if b.length = 1 then .ok (a.map (· + b.headD 0))
  else .error .broadcast

/-- Value-level `ResBlock.forward` for a single channel row, parametric in
the (normalise→activate→convolve)² transform `layer`:
`out = layer x`; `d = x.length - out.length`; the skip slice
`x[0 : x.length - d]` is `x.take (min out.length x.length)`; then the
element-wise add. -/
def resBlockForward1d (layer : List ℚ → List ℚ) (x : List ℚ) :
    Except NetErr (List ℚ) :=
  tensorAdd1d (x.take (min (layer x).length x.length)) (layer x)

/-! ### Dual-scale distal convolution pipelines
(`Network1.forward` lines 239-257 / 260-278 and `Network2.forward` lines
471-491 / 494-512).

The two sub-pipelines of each network are textually identical up to the
three max-pooling parameter triples `(kernel, stride, padding)` —
`(3,3,1), (3,3,1), (3,3,1)` for the centre-cropped first sub-pipeline and
`(15,15,7), (7,7,3), (3,3,1)` for the full-window second sub-pipeline — so
they are embedded as one function of those triples.  Both residual-block
sets use `rb1_kernel_size = rb2_kernel_size = 3`, `stride=1`,
`padding=(3-1)//2 = 1`, `dilation=1`. -/

/-- Shape action of one distal sub-pipeline, from the 3-D input up to
`torch.max(distal_out, dim=2)` (the convolutional stack, before the
`distal_fc` head). -/
def distalConvStack (inC outC k : ℕ) (mp1 mp2 mp3 : ℕ × ℕ × ℕ)
    (x : Shape3) : Except NetErr Shape2 := do
  -- conv1 = Sequential(BatchNorm1d(in_channels), Conv1d(in, out, k, 1, (k-1)//2))
  let a ← batchNorm1dShape3 inC x
  let a ← conv1dShape inC outC k 1 ((k - 1) / 2) 1 a
  -- jump_input = distal_out = maxpool1(distal_out)
  let jump ← maxPool1dShape mp1.1 mp1.2.1 mp1.2.2 a
  -- RBs1: two ResBlocks(out_channels, kernel_size=3, stride=1, padding=1, dilation=1)
  let b ← resBlockShape outC 3 1 1 1 jump
  let b ← resBlockShape outC 3 1 1 1 b
  -- assert(jump_input.shape[2] >= distal_out.shape[2])
  if b.L ≤ jump.L then do
    -- distal_out = distal_out + jump_input[:,:,0:distal_out.shape[2]]
    let b ← addShape3 b ⟨jump.B, jump.C, pySliceLen 0 b.L jump.L⟩
    let b ← maxPool1dShape mp2.1 mp2.2.1 mp2.2.2 b
    -- jump_input = distal_out = conv2(distal_out); conv2 = Sequential(BatchNorm1d, Conv1d)
    let c1 ← batchNorm1dShape3 outC b
    let jump2 ← conv1dShape outC outC k 1 ((k - 1) / 2) 1 c1
    -- RBs2: two more ResBlocks(kernel 3, stride 1, padding 1)
    let d ← resBlockShape outC 3 1 1 1 jump2
    let d ← resBlockShape outC 3 1 1 1 d
    if d.L ≤ jump2.L then do
      let d ← addShape3 d ⟨jump2.B, jump2.C, pySliceLen 0 d.L jump2.L⟩
      let d ← maxPool1dShape mp3.1 mp3.2.1 mp3.2.2 d
      -- conv3 = Sequential(BatchNorm1d, Conv1d, ReLU)
      let e ← batchNorm1dShape3 outC d
      let e ← conv1dShape outC outC k 1 ((k - 1) / 2) 1 e
      -- distal_out, _ = torch.max(distal_out, dim=2)
      if 1 ≤ e.L then .ok ⟨e.B, e.C⟩ else .error .emptyMax
    else .error .assertSkip
  else .error .assertSkip

/-- Shape action of `distal_fc1`/`distal_fc2` =
`Sequential(BatchNorm1d(out_channels), Dropout, Linear(out_channels, n_class))`. -/
def distalFcHead (outC nClass : ℕ) (x : Shape2) : Except NetErr Shape2 := do
  let y ← batchNorm1dShape2 outC x
  if y.C = outC then .ok ⟨y.B, nClass⟩ else .error .featMismatch

/-- The centre crop
`distal_input[:,:,(L//2-100):(L//2+100+1)].detach().clone()` performed on
the first sub-pipeline's input (only reached after the `> 200` assert, so
the Nat-truncated `L/2 - 100` agrees with the Python value). -/
def centerCrop (x : Shape3) : Shape3 :=
  ⟨x.B, x.C, pySliceLen (x.L / 2 - 100) (x.L / 2 + 100 + 1) x.L⟩

/-- Shape-level `Network1.forward` (lines 225-286).  The `local_input`
argument of the source signature is never used; it is kept as a dead
parameter.  The final fusion
`torch.log(torch.clamp((softmax(d1)+softmax(d2))/2, min=1e-9))` is
shape-preserving except for the broadcasting addition. -/
def network1ForwardShape (inC outC k nClass : ℕ)
    (localInput : Shape2 × Shape2) (distalInput : Shape3) :
    Except NetErr Shape2 := do
  -- assert distal_input.shape[2] > 200
  if 200 < distalInput.L then do
    let a ← distalConvStack inC outC k (3, 3, 1) (3, 3, 1) (3, 3, 1)
      (centerCrop distalInput)
    let a ← distalFcHead outC nClass a
    let b ← distalConvStack inC outC k (15, 15, 7) (7, 7, 3) (3, 3, 1) distalInput
    let b ← distalFcHead outC nClass b
    addShape2 a b
  else .error .assertLen

/-! ### Local feed-forward pipeline
(`FeedForwardNN.forward` lines 66-95, duplicated verbatim inside
`Network2.forward` lines 446-466).

The module attributes fixed at `__init__`:
`no_of_cat = len(emb_dims)`, `no_of_embs = len(emb_dims)*5` (every k-mer
position embeds into 5 dimensions through the single shared `emb_layer`),
`no_of_cont`, `lin_layers` (transitions
`no_of_embs+no_of_cont → sizes[0] → sizes[1] → ...`), one `BatchNorm1d`
per linear size, and one `Dropout` per entry of `lin_layer_dropouts`. -/

/-- Shape action of the `for lin_layer, dropout_layer, bn_layer in
zip(lin_layers, droput_layers, bn_layers)` loop body, given the list of
`(in_features, out_features)` transitions actually iterated: each linear
layer checks its input features; ReLU, the matching `BatchNorm1d` and the
dropout preserve the shape. -/
def applyLinStack : List (ℕ × ℕ) → Shape2 → Except NetErr Shape2
  | [], x => .ok x
  | (a, b) :: rest, x =>
      if x.C = a then applyLinStack rest ⟨x.B, b⟩ else .error .featMismatch

/-- Shape-level embedding of lines 74-91 of `FeedForwardNN.forward` (also
lines 449-466 of `Network2.forward`): the embedding list and `torch.cat`
(which reads `local_out` unbound when `no_of_embs == 0`), the dropout, the
conditional batch-norm + concatenation of the continuous part, and the
linear stack (`zip` truncates to the shorter of the layer lists). -/
def ffLocalPipeline (embDimsLen noOfCont : ℕ) (linSizes : List ℕ)
    (dropoutsLen : ℕ) (contData catData : Shape2) : Except NetErr Shape2 := do
  -- if self.no_of_embs != 0: local_out = [emb_layer(cat_data[:, i]) for i in range(no_of_cat)]
  -- local_out = torch.cat(local_out, dim=1)   (unconditional!)
  let localOut ←
    if embDimsLen * 5 ≠ 0 then
      if embDimsLen ≤ catData.C then
        Except.ok (⟨catData.B, embDimsLen * 5⟩ : Shape2)
      else Except.error NetErr.indexErr
    else Except.error NetErr.nameErr
  -- local_out = emb_dropout_layer(local_out)   (shape preserved)
  let localOut ←
    if noOfCont ≠ 0 then do
      -- normalized_cont_data = first_bn_layer(cont_data)
      let normalized ← batchNorm1dShape2 noOfCont contData
      if embDimsLen * 5 ≠ 0 then
        -- local_out = torch.cat([local_out, normalized_cont_data], dim=1)
        if localOut.B = normalized.B then
          Except.ok (⟨localOut.B, localOut.C + normalized.C⟩ : Shape2)
        else Except.error NetErr.broadcast
      else Except.ok normalized
    else Except.ok localOut
  applyLinStack
    ((((embDimsLen * 5 + noOfCont) :: linSizes).zip linSizes).take
      (min linSizes.length dropoutsLen)) localOut

/-- Shape-level `FeedForwardNN.forward` (lines 66-95): the local pipeline
followed by `output_layer = Linear(lin_layer_sizes[-1], n_class)`. -/
def feedForwardForwardShape (embDimsLen noOfCont : ℕ) (linSizes : List ℕ)
    (dropoutsLen nClass : ℕ) (contData catData : Shape2) :
    Except NetErr Shape2 := do
  let localOut ← ffLocalPipeline embDimsLen noOfCont linSizes dropoutsLen
    contData catData
  match linSizes.getLast? with
  | none => .error .emptyList
  | some lastSize =>
      if localOut.C = lastSize then .ok ⟨localOut.B, nClass⟩
      else .error .featMismatch

/-- `Network0.forward` (lines 104-108): unpack
`cont_data, cat_data = local_input` and delegate to the wrapped
`FeedForwardNN`; the `distal_input=None` argument is never read. -/
def network0Forward {α β γ δ : Type} (model : α → β → γ)
    (localInput : α × β) (distalInput : Option δ) : γ :=
  model localInput.1 localInput.2

/-- Shape-level `Network2.forward` (lines 437-528), in source order: the
local feed-forward pipeline, the `> 200` assert, the centre-cropped first
distal sub-pipeline, `local_fc = Linear(lin_layer_sizes[-1], n_class)`,
`distal_fc1`, the full-window second distal sub-pipeline, `distal_fc2`,
and the softmax-averaging fusion (shape-preserving except the
broadcasting additions). -/
def network2ForwardShape (embDimsLen noOfCont : ℕ) (linSizes : List ℕ)
    (dropoutsLen inC outC k nClass : ℕ) (contData catData : Shape2)
    (distalInput : Shape3) : Except NetErr Shape2 := do
  let localOut ← ffLocalPipeline embDimsLen noOfCont linSizes dropoutsLen
    contData catData
  -- assert distal_input.shape[2] > 200
  if 200 < distalInput.L then do
    let d1 ← distalConvStack inC outC k (3, 3, 1) (3, 3, 1) (3, 3, 1)
      (centerCrop distalInput)
    -- local_out = self.local_fc(local_out)
    let localFc ←
      match linSizes.getLast? with
      | none => Except.error NetErr.emptyList
      | some lastSize =>
          if localOut.C = lastSize then
            Except.ok (⟨localOut.B, nClass⟩ : Shape2)
          else Except.error NetErr.featMismatch
    let d1 ← distalFcHead outC nClass d1
    let d2 ← distalConvStack inC outC k (15, 15, 7) (7, 7, 3) (3, 3, 1) distalInput
    let d2 ← distalFcHead outC nClass d2
    -- distal_out = (softmax(d1) + softmax(d2))/2 ; local_out = softmax(local_out)
    let distalAvg ← addShape2 d1 d2
    -- out = torch.log(torch.clamp((local_out + distal_out)/2, min=1e-9))
    addShape2 localFc distalAvg
  else .error .assertLen

/-! ### Value-level fusion stage
(`Network1.forward` line 283 and `Network2.forward` lines 518-526.)
One batch row is a vector of class logits in `Fin n → ℝ`. -/

/-- Row-wise `F.softmax(z, dim=1)`. -/
noncomputable def softmaxRow (n : ℕ) (z : Fin n → ℝ) (i : Fin n) : ℝ :=
  Real.exp (z i) / ∑ j, Real.exp (z j)

/-- `torch.clamp(x, min=m)`. -/
def clampMin (x m : ℝ) : ℝ := max x m

/-- `Network1.forward` fusion (line 283):
`torch.log(torch.clamp((F.softmax(distal_out)+F.softmax(distal_out2))/2, min=1e-9))`
applied to the two sub-pipeline logits of one batch row. -/
noncomputable def network1Fusion (n : ℕ) (d1 d2 : Fin n → ℝ) : Fin n → ℝ :=
  fun i =>
    Real.log (clampMin ((softmaxRow n d1 i + softmaxRow n d2 i) / 2) 1e-9)

/-- `Network2.forward` fusion (lines 518-526):
`distal_out = (F.softmax(distal_out)+F.softmax(distal_out2))/2`;
`local_out = F.softmax(local_out)`;
`out = torch.log(torch.clamp((local_out + distal_out)/2, min=1e-9))`. -/
noncomputable def network2Fusion (n : ℕ) (lo d1 d2 : Fin n → ℝ) : Fin n → ℝ :=
  let distalOut : Fin n → ℝ :=
    fun i => (softmaxRow n d1 i + softmaxRow n d2 i) / 2
  let localOut : Fin n → ℝ := fun i => softmaxRow n lo i
  fun i => Real.log (clampMin ((localOut i + distalOut i) / 2) 1e-9)

/-- The fusion output claimed by the specification for the distal-only
model: `log(clamp((softmax(sub1)+softmax(sub2))/2, min=1e-9))`. -/
noncomputable def specFusedNetwork1 (n : ℕ) (d1 d2 : Fin n → ℝ) : Fin n → ℝ :=
  fun i => Real.log (max ((softmaxRow n d1 i + softmaxRow n d2 i) / 2) 1e-9)

/-- The fusion output claimed by the specification when a local branch is
present: `log(clamp((softmax(local)+(softmax(distal1)+softmax(distal2))/2)/2,
min=1e-9))`. -/
noncomputable def specFusedNetwork2 (n : ℕ) (lo d1 d2 : Fin n → ℝ) :
    Fin n → ℝ :=
  fun i =>
    Real.log (max ((softmaxRow n lo i +
      (softmaxRow n d1 i + softmaxRow n d2 i) / 2) / 2) 1e-9)

/-- A log-space class distribution that is valid in the specification's
sense: its exponentials sum to `1` up to at most `n * 1e-9` above `1`, and
every entry is at least `log 1e-9` (no `-inf`). -/
noncomputable def validLogDist (n : ℕ) (o : Fin n → ℝ) : Prop :=
  1 ≤ ∑ i, Real.exp (o i) ∧
  ∑ i, Real.exp (o i) ≤ 1 + (n : ℝ) * 1e-9 ∧
  ∀ i, Real.log 1e-9 ≤ o i

/-! ### The Ray-Tune driver (`run_train_raytune.py`, `main`). -/

/-- Externally visible driver actions around the GPU availability gate
(lines 416-425), `ray.init` (line 433) and `tune.run` (line 477). -/
inductive DriverEv where
  /-- the `print('Error: You requested GPU computing, ...', file=sys.stderr)`. -/
  | printGpuError
  /-- setting `CUDA_DEVICE_ORDER` / `CUDA_VISIBLE_DEVICES` (lines 421-422). -/
  | setCudaEnv
  /-- `ray.init(...)` (line 433). -/
  | rayInit
  /-- `tune.run(...)` (line 477). -/
  | tuneRun
  deriving DecidableEq, Repr

/-- The GPU gate of `main` (lines 416-433, 477): when
`ray_ngpus > 0 or gpu_per_trial > 0` and `torch.cuda.is_available()` is
false, the driver prints the error and calls `sys.exit()` — which, having
no argument, terminates the process with exit status `0`.  The second
component is the exit status when the driver exits at the gate (`none`
means it continues into `ray.init` and `tune.run`). -/
def driverGpuGate (rayNgpus : ℕ) (gpuPerTrial : ℚ) (cudaAvailable : Bool) :
    List DriverEv × Option ℕ :=
  if 0 < rayNgpus ∨ 0 < gpuPerTrial then
    if cudaAvailable then
      ([DriverEv.setCudaEnv, DriverEv.rayInit, DriverEv.tuneRun], none)
    else ([DriverEv.printGpuError], some 0)
  else ([DriverEv.rayInit, DriverEv.tuneRun], none)

/-- The `ASHAScheduler(...)` keyword arguments. -/
structure ASHASchedulerCfg where
  metric : String
  mode : String
  maxT : ℕ
  gracePeriod : ℕ
  reductionFactor : ℕ
  deriving DecidableEq, Repr

/-- The scheduler built by `main` (lines 462-468):
`ASHAScheduler(metric=ASHA_metric, mode='min', max_t=epochs,
grace_period=grace_period, reduction_factor=2)`. -/
def mainScheduler (ashaMetric : String) (epochs gracePeriod : ℕ) :
    ASHASchedulerCfg :=
  ⟨ashaMetric, "min", epochs, gracePeriod, 2⟩

/-- The `stop={'after_min_loss': 3}` argument of `tune.run` (line 485). -/
def mainStopCriteria : List (String × ℕ) := [("after_min_loss", 3)]

/-- Modelled from the spec: Ray Tune's `stop` dict (an external library
boundary) terminates a trial as soon as any listed metric of the trial's
reported result reaches its threshold, independently of the ASHA
scheduler's rung decisions. -/
def rayStopCheck (stop : List (String × ℕ)) (result : String → ℕ) : Bool :=
  stop.any fun c => decide (c.2 ≤ result c.1)

/-- Helper for `afterMinLoss`: fold over the remaining reports carrying
the best loss so far and the current counter value. -/
def afterMinLossAux : ℚ → ℕ → List ℚ → ℕ
  | _, c, [] => c
  | best, c, l :: ls =>
      if l < best then afterMinLossAux l 0 ls else afterMinLossAux best (c + 1) ls

/-- Modelled from the spec: the `after_min_loss` metric reported by the
trial loop in `MuRaL/training.py` (not under `src/`) — the number of
reporting intervals since the best (minimum) validation loss last
improved. -/
def afterMinLoss : List ℚ → ℕ
  | [] => 0
  | l :: ls => afterMinLossAux l 0 ls

/-! ### Derived architectural constants for the end-to-end scenario. -/

/-- Modelled from the spec: the number of categorical k-mer positions the
preprocessing module (not under `src/`) feeds to the local branch — the
local context token sequence of length `2*local_radius+1` reduced to
k-mer indices of order `local_order`, giving
`2*local_radius+1 - (local_order-1)` positions, i.e. `len(emb_dims)`. -/
def localTokenCount (localRadius localOrder : ℕ) : ℕ :=
  2 * localRadius + 1 - (localOrder - 1)

/-- Modelled from the spec: the sequence length `2*distal_radius+1` of the
one-hot distal channel tensor produced by the preprocessing module (not
under `src/`). -/
def distalWindowLen (distalRadius : ℕ) : ℕ := 2 * distalRadius + 1

/-- `self.seq_len = distal_radius*2+1 - (distal_order-1)` as computed by
`Network2.__init__` (line 340). -/
def network2SeqLen (distalRadius distalOrder : ℕ) : ℕ :=
  distalRadius * 2 + 1 - (distalOrder - 1)

/-! ## Helper lemmas -/

theorem exceptBind_ok {ε α β : Type} (a : α) (f : α → Except ε β) :
    (Except.ok a : Except ε α) >>= f = f a := rfl

theorem exceptBind_err {ε α β : Type} (e : ε) (f : α → Except ε β) :
    (Except.error e : Except ε α) >>= f = Except.error e := rfl

/-- With stride 1, dilation 1 and the padding `(k-1)//2` used by every
convolution of the two networks, an odd kernel size preserves the
sequence length. -/
theorem conv1dLen_netOdd (L k : ℕ) (hk : k % 2 = 1) (hL : 1 ≤ L) :
    conv1dLen L k 1 ((k - 1) / 2) 1 = .ok L := by
  unfold conv1dLen
  rw [if_pos (by omega : 1 ≤ k ∧ 1 ≤ 1 ∧ 1 * (k - 1) + 1 ≤ L + 2 * ((k - 1) / 2))]
  exact congrArg Except.ok (by omega)

theorem conv1dShape_netOdd (B c c' k L : ℕ) (hk : k % 2 = 1) (hL : 1 ≤ L) :
    conv1dShape c c' k 1 ((k - 1) / 2) 1 ⟨B, c, L⟩ = .ok ⟨B, c', L⟩ := by
  simp [conv1dShape, conv1dLen_netOdd L k hk hL, exceptBind_ok]

/-- All three pooling stages of the networks use `kernel = stride = 2*p+1`. -/
theorem maxPool1dShape_net (B c L k p : ℕ) (hk : k = 2 * p + 1) (hL : 1 ≤ L) :
    maxPool1dShape k k p ⟨B, c, L⟩ = .ok ⟨B, c, (L - 1) / k + 1⟩ := by
  subst hk
  unfold maxPool1dShape
  rw [if_pos (by omega : 2 * p ≤ 2 * p + 1),
    if_pos (by omega : 1 ≤ 2 * p + 1 ∧ 2 * p + 1 ≤ L + 2 * p)]
  exact congrArg Except.ok (by rw [show L + 2 * p - (2 * p + 1) = L - 1 by omega])

/-- A `ResBlock` with kernel 3, stride 1, padding 1, dilation 1 (the
parameters used by `RBs1`/`RBs2` in both networks) preserves its input
shape. -/
theorem resBlockShape_pres (B c L : ℕ) (hL : 1 ≤ L) :
    resBlockShape c 3 1 1 1 ⟨B, c, L⟩ = .ok ⟨B, c, L⟩ := by
  have hconv : conv1dLen L 3 1 1 1 = .ok L := by
    unfold conv1dLen
    rw [if_pos (by omega : 1 ≤ 3 ∧ 1 ≤ 1 ∧ 1 * (3 - 1) + 1 ≤ L + 2 * 1)]
    exact congrArg Except.ok (by omega)
  simp [resBlockShape, resBlockLayerShape, batchNorm1dShape3, conv1dShape,
    hconv, exceptBind_ok, addShape3, elemAddLen, pySliceLen]

theorem distalFcHead_ok (B outC n : ℕ) :
    distalFcHead outC n ⟨B, outC⟩ = .ok ⟨B, n⟩ := by
  simp [distalFcHead, batchNorm1dShape2, exceptBind_ok]

theorem addShape2_same (B C : ℕ) :
    addShape2 ⟨B, C⟩ ⟨B, C⟩ = .ok ⟨B, C⟩ := by
  simp [addShape2, elemAddLen, exceptBind_ok]

/-- As soon as the `> 200` assert has passed, the centre crop returns the
fixed window `[L//2-100, L//2+101)` of length 201. -/
theorem centerCrop_eq (B c L : ℕ) (hL : 200 < L) :
    centerCrop ⟨B, c, L⟩ = ⟨B, c, 201⟩ := by
  simp only [centerCrop, pySliceLen, Shape3.mk.injEq, true_and]
  omega

/-- The cropped sub-pipeline (pool triples `(3,3,1)` throughout) succeeds
for every odd kernel size on every non-empty input. -/
theorem distalConvStackCropped_ok (B inC outC k L : ℕ)
    (hk : k % 2 = 1) (hL : 1 ≤ L) :
    distalConvStack inC outC k (3, 3, 1) (3, 3, 1) (3, 3, 1) ⟨B, inC, L⟩ =
      .ok ⟨B, outC⟩ := by
  simp (disch := omega) [distalConvStack, batchNorm1dShape3,
    conv1dShape_netOdd, maxPool1dShape_net, resBlockShape_pres,
    addShape3, elemAddLen, pySliceLen, exceptBind_ok]

/-- The full-window sub-pipeline (pool triples `(15,15,7)`, `(7,7,3)`,
`(3,3,1)`) succeeds for every odd kernel size on every non-empty input. -/
theorem distalConvStackFull_ok (B inC outC k L : ℕ)
    (hk : k % 2 = 1) (hL : 1 ≤ L) :
    distalConvStack inC outC k (15, 15, 7) (7, 7, 3) (3, 3, 1) ⟨B, inC, L⟩ =
      .ok ⟨B, outC⟩ := by
  simp (disch := omega) [distalConvStack, batchNorm1dShape3,
    conv1dShape_netOdd, maxPool1dShape_net, resBlockShape_pres,
    addShape3, elemAddLen, pySliceLen, exceptBind_ok]

theorem network1ForwardShape_ok (B inC outC k nClass L : ℕ)
    (li : Shape2 × Shape2) (hk : k % 2 = 1) (hL : 200 < L) :
    network1ForwardShape inC outC k nClass li ⟨B, inC, L⟩ = .ok ⟨B, nClass⟩ := by
  simp (disch := omega) [network1ForwardShape, centerCrop_eq,
    distalConvStackCropped_ok, distalConvStackFull_ok, distalFcHead_ok,
    addShape2_same, exceptBind_ok, hL]

theorem network2ForwardShape_ok (Bb embN nCont : ℕ) (sizes : List ℕ)
    (dropN inC outC k nClass lastS L : ℕ) (cont cat : Shape2)
    (hloc : ffLocalPipeline embN nCont sizes dropN cont cat = .ok ⟨Bb, lastS⟩)
    (hlast : sizes.getLast? = some lastS)
    (hk : k % 2 = 1) (hL : 200 < L) :
    network2ForwardShape embN nCont sizes dropN inC outC k nClass cont cat
      ⟨Bb, inC, L⟩ = .ok ⟨Bb, nClass⟩ := by
  simp (disch := omega) [network2ForwardShape, hloc, hlast, centerCrop_eq,
    distalConvStackCropped_ok, distalConvStackFull_ok, distalFcHead_ok,
    addShape2_same, exceptBind_ok, hL]

/-- The linear stack applied to a chain of matching transitions ends at
the last layer size. -/
theorem applyLinStack_chain (sizes : List ℕ) (inF B : ℕ) :
    applyLinStack ((inF :: sizes).zip sizes) ⟨B, inF⟩ =
      .ok ⟨B, sizes.getLastD inF⟩ := by
  induction sizes generalizing inF with
  | nil => rfl
  | cons s rest ih =>
      show applyLinStack ((inF, s) :: (s :: rest).zip rest) ⟨B, inF⟩ = _
      rw [List.getLastD_cons]
      show (if (⟨B, inF⟩ : Shape2).C = inF then
          applyLinStack ((s :: rest).zip rest) ⟨B, s⟩
        else .error .featMismatch) = _
      rw [if_pos rfl]
      exact ih s

/-- With no continuous features the local pipeline runs on the embedded
categorical side alone. -/
theorem ffLocalPipeline_contEmpty (B embN catC contC dropN : ℕ)
    (sizes : List ℕ) (h1 : 1 ≤ embN) (h2 : embN ≤ catC)
    (hdrop : sizes.length ≤ dropN) :
    ffLocalPipeline embN 0 sizes dropN ⟨B, contC⟩ ⟨B, catC⟩ =
      .ok ⟨B, sizes.getLastD (embN * 5)⟩ := by
  have h5 : embN * 5 ≠ 0 := by omega
  have hmin : min sizes.length dropN = sizes.length := Nat.min_eq_left hdrop
  have htake : (((embN * 5) :: sizes).zip sizes).take sizes.length =
      ((embN * 5) :: sizes).zip sizes :=
    List.take_of_length_le (by rw [List.length_zip]; omega)
  have hchain := applyLinStack_chain sizes (embN * 5) B
  rw [List.getLastD_eq_getLast?] at hchain
  simp [ffLocalPipeline, h5, h2, exceptBind_ok, hmin, htake, hchain,
    List.getLastD_eq_getLast?]

theorem softmaxRow_nonneg (n : ℕ) (z : Fin n → ℝ) (i : Fin n) :
    0 ≤ softmaxRow n z i :=
  div_nonneg (Real.exp_pos _).le (Finset.sum_nonneg fun j _ => (Real.exp_pos _).le)

theorem softmaxRow_sum (n : ℕ) (hn : 0 < n) (z : Fin n → ℝ) :
    ∑ i, softmaxRow n z i = 1 := by
  haveI : Nonempty (Fin n) := Fin.pos_iff_nonempty.mp hn
  have hpos : 0 < ∑ j, Real.exp (z j) :=
    Finset.sum_pos (fun j _ => Real.exp_pos _) Finset.univ_nonempty
  simp only [softmaxRow]
  rw [← Finset.sum_div, div_self hpos.ne']

/-- The `log ∘ clamp(·, 1e-9)` image of any non-negative vector summing to
one is a valid log-space distribution in the specification's sense. -/
theorem logClamp_valid (n : ℕ) (hn : 0 < n) (x : Fin n → ℝ)
    (hx0 : ∀ i, 0 ≤ x i) (hx1 : ∑ i, x i = 1) :
    validLogDist n (fun i => Real.log (clampMin (x i) 1e-9)) := by
  have heps : (0 : ℝ) < 1e-9 := by norm_num
  have hmax : ∀ i : Fin n, 0 < max (x i) 1e-9 := fun i =>
    lt_of_lt_of_le heps (le_max_right _ _)
  have hexp : ∀ i : Fin n,
      Real.exp (Real.log (clampMin (x i) 1e-9)) = max (x i) 1e-9 :=
    fun i => Real.exp_log (hmax i)
  refine ⟨?_, ?_, ?_⟩
  · calc (1 : ℝ) = ∑ i, x i := hx1.symm
    _ ≤ ∑ i, max (x i) 1e-9 := Finset.sum_le_sum fun i _ => le_max_left _ _
    _ = ∑ i, Real.exp (Real.log (clampMin (x i) 1e-9)) :=
        Finset.sum_congr rfl fun i _ => (hexp i).symm
  · calc ∑ i, Real.exp (Real.log (clampMin (x i) 1e-9))
        = ∑ i, max (x i) 1e-9 := Finset.sum_congr rfl fun i _ => hexp i
    _ ≤ ∑ i, (x i + 1e-9) :=
        Finset.sum_le_sum fun i _ =>
          max_le (le_add_of_nonneg_right heps.le) (le_add_of_nonneg_left (hx0 i))
    _ = 1 + (n : ℝ) * 1e-9 := by
        rw [Finset.sum_add_distrib, hx1, Finset.sum_const, Finset.card_univ,
          Fintype.card_fin, nsmul_eq_mul]
  · intro i
    exact Real.log_le_log heps (le_max_right (x i) 1e-9)

theorem avg2_sum_one (n : ℕ) (hn : 0 < n) (d1 d2 : Fin n → ℝ) :
    ∑ i, (softmaxRow n d1 i + softmaxRow n d2 i) / 2 = 1 := by
  rw [← Finset.sum_div, Finset.sum_add_distrib, softmaxRow_sum n hn d1,
    softmaxRow_sum n hn d2]
  norm_num

/-! ## Claim theorems -/

/-- C1 (amended to odd kernel sizes): for every distal input of length
greater than 200 with the configured channel count, every odd
configuration kernel size (the default is 3), every channel count and any
local input whose feed-forward pipeline succeeds with the last linear
size, the forward passes of `Network1` and `Network2` return a
`[batch, n_class]` tensor.  The original claim over all admissible kernel
sizes is false: see `c1_counterexample` (even kernels shrink each
convolution by one position and underflow the second sub-pipeline). -/
theorem c1_dual_scale_shape (B inC outC k nClass L : ℕ)
    (li : Shape2 × Shape2) (Bb embN nCont dropN lastS L2 : ℕ)
    (sizes : List ℕ) (cont cat : Shape2)
    (hk : k % 2 = 1) (hL : 200 < L) (hL2 : 200 < L2)
    (hloc : ffLocalPipeline embN nCont sizes dropN cont cat = .ok ⟨Bb, lastS⟩)
    (hlast : sizes.getLast? = some lastS) :
    network1ForwardShape inC outC k nClass li ⟨B, inC, L⟩ = .ok ⟨B, nClass⟩ ∧
    network2ForwardShape embN nCont sizes dropN inC outC k nClass cont cat
      ⟨Bb, inC, L2⟩ = .ok ⟨Bb, nClass⟩ :=
  ⟨network1ForwardShape_ok B inC outC k nClass L li hk hL,
   network2ForwardShape_ok Bb embN nCont sizes dropN inC outC k nClass lastS
     L2 cont cat hloc hlast hk hL2⟩

/-- C1 witness: the amended claim instantiated at the default
configuration (kernel 3, 32 channels, 4 classes) and distal length 201. -/
theorem c1_witness :
    (3 % 2 = 1) ∧ (200 < 201) ∧
    ffLocalPipeline 11 0 [150, 75] 2 ⟨32, 0⟩ ⟨32, 11⟩ = .ok ⟨32, 75⟩ ∧
    ([150, 75] : List ℕ).getLast? = some 75 ∧
    network1ForwardShape 4 32 3 4 (⟨1, 0⟩, ⟨1, 0⟩) ⟨1, 4, 201⟩ = .ok ⟨1, 4⟩ ∧
    network2ForwardShape 11 0 [150, 75] 2 4 32 3 4 ⟨32, 0⟩ ⟨32, 11⟩
      ⟨32, 4, 201⟩ = .ok ⟨32, 4⟩ := by
  have h := c1_dual_scale_shape 1 4 32 3 4 201 (⟨1, 0⟩, ⟨1, 0⟩) 32 11 0 2 75
    201 [150, 75] ⟨32, 0⟩ ⟨32, 11⟩ rfl (by omega) (by omega) rfl rfl
  exact ⟨rfl, by omega, rfl, rfl, h.1, h.2⟩

/-- C1 counterexample: with the admissible even kernel size 2, a valid
distal input of length 201 makes `Network1.forward` raise inside the
second sub-pipeline (its third convolution receives a length-1 input
after pooling and would produce an empty output) instead of returning a
`[batch, n_class]` tensor. -/
theorem c1_counterexample :
    network1ForwardShape 4 32 2 4 (⟨1, 0⟩, ⟨1, 0⟩) ⟨1, 4, 201⟩ =
      .error .convLen := rfl

/-- C2: for every distal input with sequence length at most 200 — whatever
its batch and channel dimensions, kernel size or channel configuration —
`Network1.forward` and `Network2.forward` (the latter under any local
input whose feed-forward part succeeds) stop with the distinguished
`assertLen` failure of `assert distal_input.shape[2] > 200`, which in both
embeddings (as in the source) precedes every convolution applied to the
distal input: no conv-stage error value can be produced before it. -/
theorem c2_assert_precondition (inC outC k nClass B C L : ℕ)
    (li : Shape2 × Shape2) (embN nCont dropN Bb lastS C2 : ℕ)
    (sizes : List ℕ) (cont cat : Shape2) (hL : L ≤ 200)
    (hloc : ffLocalPipeline embN nCont sizes dropN cont cat = .ok ⟨Bb, lastS⟩) :
    network1ForwardShape inC outC k nClass li ⟨B, C, L⟩ =
      .error .assertLen ∧
    network2ForwardShape embN nCont sizes dropN inC outC k nClass cont cat
      ⟨Bb, C2, L⟩ = .error .assertLen := by
  constructor
  · simp [network1ForwardShape, if_neg (by omega : ¬ 200 < L)]
  · simp [network2ForwardShape, hloc, exceptBind_ok,
      if_neg (by omega : ¬ 200 < L)]

/-- C2 witness: both forward passes fail the length assert at distal
length 100. -/
theorem c2_witness :
    (100 ≤ 200) ∧
    ffLocalPipeline 11 0 [150, 75] 2 ⟨32, 0⟩ ⟨32, 11⟩ = .ok ⟨32, 75⟩ ∧
    network1ForwardShape 4 32 3 4 (⟨1, 0⟩, ⟨1, 0⟩) ⟨1, 4, 100⟩ =
      .error .assertLen ∧
    network2ForwardShape 11 0 [150, 75] 2 4 32 3 4 ⟨32, 0⟩ ⟨32, 11⟩
      ⟨32, 4, 100⟩ = .error .assertLen := by
  have h := c2_assert_precondition 4 32 3 4 1 4 100 (⟨1, 0⟩, ⟨1, 0⟩) 11 0 2 32
    75 4 [150, 75] ⟨32, 0⟩ ⟨32, 11⟩ (by omega) rfl
  exact ⟨by omega, rfl, h.1, h.2⟩

/-- C3: for every batch row the fused outputs computed by the code —
`Network1`'s `log(clamp((softmax(d1)+softmax(d2))/2, 1e-9))` and
`Network2`'s softmax-normalised local logits averaged with the mean of
the two distal sub-pipeline distributions — coincide with the formulas
stated by the specification. -/
theorem c3_fusion_formula (n : ℕ) (lo d1 d2 : Fin n → ℝ) :
    network1Fusion n d1 d2 = specFusedNetwork1 n d1 d2 ∧
    network2Fusion n lo d1 d2 = specFusedNetwork2 n lo d1 d2 :=
  ⟨rfl, rfl⟩

/-- C4: for every batch row and all branch logits, the exponentials of the
fused output of either network sum to at least 1 and at most
`1 + n_class * 1e-9`, and every entry is at least `log 1e-9` (no entry is
`-inf`), even for one-hot-like near-certain branch distributions. -/
theorem c4_fusion_valid_distribution (n : ℕ) (hn : 0 < n)
    (d1 d2 lo : Fin n → ℝ) :
    validLogDist n (network1Fusion n d1 d2) ∧
    validLogDist n (network2Fusion n lo d1 d2) := by
  constructor
  · exact logClamp_valid n hn
      (fun i => (softmaxRow n d1 i + softmaxRow n d2 i) / 2)
      (fun i => div_nonneg
        (add_nonneg (softmaxRow_nonneg n d1 i) (softmaxRow_nonneg n d2 i))
        (by norm_num))
      (avg2_sum_one n hn d1 d2)
  · refine logClamp_valid n hn
      (fun i => (softmaxRow n lo i +
        (softmaxRow n d1 i + softmaxRow n d2 i) / 2) / 2)
      (fun i => div_nonneg
        (add_nonneg (softmaxRow_nonneg n lo i) (div_nonneg
          (add_nonneg (softmaxRow_nonneg n d1 i) (softmaxRow_nonneg n d2 i))
          (by norm_num)))
        (by norm_num)) ?_
    rw [← Finset.sum_div, Finset.sum_add_distrib, softmaxRow_sum n hn lo]
    rw [avg2_sum_one n hn d1 d2]
    norm_num

/-- C4 witness: the distribution property instantiated at `n_class = 4`
with all-zero logits for every branch. -/
theorem c4_witness :
    (0 < 4) ∧
    (validLogDist 4 (network1Fusion 4 (fun _ => 0) (fun _ => 0)) ∧
     validLogDist 4 (network2Fusion 4 (fun _ => 0) (fun _ => 0)
       (fun _ => 0))) :=
  ⟨by omega, c4_fusion_valid_distribution 4 (by omega) (fun _ => 0)
    (fun _ => 0) (fun _ => 0)⟩

/-- C5: (i) a `ResBlock`'s output length is the deterministic composition
of its two convolutions' length maps (for any kernel size, stride,
padding, dilation whose net effect does not lengthen the sequence);
(ii) with kernel 3, stride 1, dilation 1, padding 1 — the values every
network instantiation uses — the output length equals the input length
exactly; (iii) at the value level the skip connection adds exactly the
first output-length positions of the original input (the truncation keeps
the left edge) to the transformed output. -/
theorem c5_resblock_length_and_skip :
    (∀ c k s p dil B L L1 L2 : ℕ,
        conv1dLen L k s p dil = .ok L1 → conv1dLen L1 k s p dil = .ok L2 →
        L2 ≤ L →
        resBlockShape c k s p dil ⟨B, c, L⟩ = .ok ⟨B, c, L2⟩) ∧
    (∀ c B L : ℕ, 1 ≤ L →
        resBlockShape c 3 1 1 1 ⟨B, c, L⟩ = .ok ⟨B, c, L⟩) ∧
    (∀ (layer : List ℚ → List ℚ) (x : List ℚ),
        (layer x).length ≤ x.length →
        resBlockForward1d layer x =
          .ok (List.zipWith (· + ·) (x.take (layer x).length) (layer x))) := by
  refine ⟨?_, fun c B L hL => resBlockShape_pres B c L hL, ?_⟩
  · intro c k s p dil B L L1 L2 h1 h2 hle
    have hmin : min L2 L = L2 := Nat.min_eq_left hle
    simp [resBlockShape, resBlockLayerShape, batchNorm1dShape3,
      conv1dShape, h1, h2, exceptBind_ok, addShape3, elemAddLen,
      pySliceLen, hmin, hle]
  · intro layer x h
    have hmin : min (layer x).length x.length = (layer x).length :=
      Nat.min_eq_left h
    have hlen : (x.take (layer x).length).length = (layer x).length := by
      simp [List.length_take, hmin]
    simp [resBlockForward1d, tensorAdd1d, hmin, hlen]

/-- C5 witness: the three parts instantiated at padding 0 on length 10
(each convolution removes two positions), at the network parameters on
length 10, and at a concrete two-position-dropping layer. -/
theorem c5_witness :
    conv1dLen 10 3 1 0 1 = .ok 8 ∧ conv1dLen 8 3 1 0 1 = .ok 6 ∧ (6 ≤ 10) ∧
    resBlockShape 32 3 1 0 1 ⟨2, 32, 10⟩ = .ok ⟨2, 32, 6⟩ ∧
    resBlockShape 32 3 1 1 1 ⟨2, 32, 10⟩ = .ok ⟨2, 32, 10⟩ ∧
    resBlockForward1d (fun l => l.drop 2) [1, 2, 3] = .ok [4] := by
  refine ⟨rfl, rfl, by omega,
    c5_resblock_length_and_skip.1 32 3 1 0 1 2 10 8 6 rfl rfl (by omega),
    c5_resblock_length_and_skip.2.1 32 2 10 (by omega), ?_⟩
  have h := c5_resblock_length_and_skip.2.2 (fun l => l.drop 2) [1, 2, 3]
    (by simp)
  exact h.trans (by norm_num)

/-- C6 (amended): the configuration `local_radius=5, local_order=1,
distal_radius=50, model_no=2, n_class=4` does give a local branch
accepting token sequences of length 11 and a distal window of length 101
(the `seq_len` attribute), but a forward pass with that distal length
fails the `> 200` assertion rather than succeeding; the same model's
forward succeeds and yields `[batch, 4]` only for distal lengths above
200, e.g. 201 (`distal_radius=100`). -/
theorem c6_scenario_amended :
    localTokenCount 5 1 = 11 ∧
    network2SeqLen 50 1 = 101 ∧
    distalWindowLen 50 = 101 ∧
    network2ForwardShape 11 0 [150, 75] 2 4 32 3 4 ⟨32, 0⟩ ⟨32, 11⟩
      ⟨32, 4, 101⟩ = .error .assertLen ∧
    network2ForwardShape 11 0 [150, 75] 2 4 32 3 4 ⟨32, 0⟩ ⟨32, 11⟩
      ⟨32, 4, 201⟩ = .ok ⟨32, 4⟩ :=
  ⟨rfl, rfl, rfl, rfl, rfl⟩

/-- C6 counterexample: with `distal_radius=50` the distal input length is
`2*50+1 = 101 ≤ 200`, so `Network2.forward` raises the assertion instead
of producing a `[32, 4]` output as the claim states. -/
theorem c6_counterexample :
    network2ForwardShape 11 0 [150, 75] 2 4 32 3 4 ⟨32, 0⟩ ⟨32, 11⟩
      ⟨32, 4, 101⟩ = .error .assertLen := rfl

/-- C7 (amended): when the continuous side is empty (`no_of_cont = 0`) the
local feed-forward branch indeed skips it and produces `[batch, n_class]`
logits from the embedded categorical side alone; but when the categorical
side is empty (`emb_dims = []`, so `no_of_embs = 0`) the branch does not
compute logits from the continuous side — `torch.cat(local_out, dim=1)`
executes outside the `if self.no_of_embs != 0` guard and raises an
unbound-local-variable error. -/
theorem c7_local_branch_empty_sides :
    (∀ B embN catC contC dropN nClass : ℕ, ∀ sizes : List ℕ,
        1 ≤ embN → embN ≤ catC → sizes ≠ [] → sizes.length ≤ dropN →
        feedForwardForwardShape embN 0 sizes dropN nClass ⟨B, contC⟩
          ⟨B, catC⟩ = .ok ⟨B, nClass⟩) ∧
    (∀ B nCont contC catC dropN nClass : ℕ, ∀ sizes : List ℕ,
        feedForwardForwardShape 0 nCont sizes dropN nClass ⟨B, contC⟩
          ⟨B, catC⟩ = .error .nameErr) := by
  constructor
  · intro B embN catC contC dropN nClass sizes h1 h2 hne hdrop
    obtain ⟨lastS, hlast⟩ : ∃ l, sizes.getLast? = some l := by
      cases hs : sizes.getLast? with
      | none => exact absurd (List.getLast?_eq_none_iff.mp hs) hne
      | some l => exact ⟨l, rfl⟩
    have hD : sizes.getLastD (embN * 5) = lastS := by
      rw [List.getLastD_eq_getLast?, hlast]
      rfl
    simp [feedForwardForwardShape, exceptBind_ok,
      ffLocalPipeline_contEmpty B embN catC contC dropN sizes h1 h2 hdrop,
      hD, hlast]
  · intro B nCont contC catC dropN nClass sizes
    simp [feedForwardForwardShape, ffLocalPipeline, exceptBind_ok,
      exceptBind_err]

/-- C7 witness: the amended claim at the default local configuration —
logits from 11 embedded positions with no continuous features, and the
unbound-variable failure with 0 embedded positions and 3 continuous
features. -/
theorem c7_witness :
    (1 ≤ 11) ∧ (11 ≤ 11) ∧ (([150, 75] : List ℕ) ≠ []) ∧
    (([150, 75] : List ℕ).length ≤ 2) ∧
    feedForwardForwardShape 11 0 [150, 75] 2 4 ⟨8, 0⟩ ⟨8, 11⟩ =
      .ok ⟨8, 4⟩ ∧
    feedForwardForwardShape 0 3 [150, 75] 2 4 ⟨8, 3⟩ ⟨8, 0⟩ =
      .error .nameErr :=
  ⟨by omega, by omega, by simp, by simp,
   c7_local_branch_empty_sides.1 8 11 11 0 2 4 [150, 75] (by omega) (by omega)
     (by simp) (by simp),
   c7_local_branch_empty_sides.2 8 3 3 0 2 4 [150, 75]⟩

/-- C7 counterexample: with zero categorical k-mer positions and three
continuous features the forward pass raises the unbound-variable error
instead of producing per-class logits from the continuous side. -/
theorem c7_counterexample :
    feedForwardForwardShape 0 3 [150, 75] 2 4 ⟨8, 3⟩ ⟨8, 0⟩ =
      .error .nameErr := rfl

/-- C8: evaluating the driver's GPU gate at the failing input (GPU
requested via the defaults `ray_ngpus=1`, `gpu_per_trial=0.19`, CUDA
unavailable) shows the run does abort before `ray.init` and `tune.run`,
but — because `sys.exit()` is called with no argument — the process exit
status is 0, not the non-zero status the claim requires. -/
theorem c8_driver_gpu_gate_eval :
    driverGpuGate 1 (19 / 100) false = ([DriverEv.printGpuError], some 0) ∧
    DriverEv.rayInit ∉ (driverGpuGate 1 (19 / 100) false).1 ∧
    DriverEv.tuneRun ∉ (driverGpuGate 1 (19 / 100) false).1 := by
  refine ⟨rfl, ?_, ?_⟩ <;> simp [driverGpuGate]

/-- C9: the driver's early-termination policy is asynchronous successive
halving on the user-selected metric in minimisation mode with reduction
factor 2, rung grace period `grace_period` and iteration cap `epochs`;
and the `stop` dict terminates any trial exactly when its reported
`after_min_loss` counter (reporting intervals without improvement in best
loss) reaches 3, regardless of rung standing. -/
theorem c9_scheduler_policy :
    (∀ (metric : String) (epochs grace : ℕ),
        mainScheduler metric epochs grace =
          { metric := metric, mode := "min", maxT := epochs,
            gracePeriod := grace, reductionFactor := 2 }) ∧
    (∀ result : String → ℕ,
        rayStopCheck mainStopCriteria result = true ↔
          3 ≤ result "after_min_loss") ∧
    (∀ losses : List ℚ,
        rayStopCheck mainStopCriteria
            (fun m => if m = "after_min_loss" then afterMinLoss losses
              else 0) = true ↔
          3 ≤ afterMinLoss losses) := by
  refine ⟨fun _ _ _ => rfl, fun result => ?_, fun losses => ?_⟩
  · simp [rayStopCheck, mainStopCriteria]
  · simp [rayStopCheck, mainStopCriteria]

/-- C9 witness: a trial whose loss history stalls for three reporting
intervals after its minimum is stopped by the stop criteria. -/
theorem c9_witness :
    rayStopCheck mainStopCriteria
      (fun m => if m = "after_min_loss"
        then afterMinLoss [5, 4, 4, 4, 4] else 0) = true :=
  (c9_scheduler_policy.2.2 [5, 4, 4, 4, 4]).mpr (by norm_num [afterMinLoss,
    afterMinLossAux])

/-- C10: `Network0.forward` never reads its `distal_input` argument: for
any wrapped model, any local input and any two distal arguments
(including the default `None`), the outputs coincide. -/
theorem c10_network0_ignores_distal {α β γ δ : Type} (model : α → β → γ)
    (localInput : α × β) (d1 d2 : Option δ) :
    network0Forward model localInput d1 = network0Forward model localInput d2 :=
  rfl

end MuRaL
